import Mathlib

/-!
Verification of the `openbankingbr` fetch-cache-paginate-normalize pipeline.

The development shallowly embeds the Python modules `openbankingbr/utils.py`
and `openbankingbr/models.py`.  JSON documents are modelled by the inductive
`JsonValue`; Python `dict`s become association lists with first-match lookup
(JSON parsing produces distinct keys), and JSON numbers are modelled by `Int`
(no claim depends on fractional numeric values, only on where values flow).
Python exceptions become the `PyExc` type and fallible code returns
`Except PyExc _` or explicit result types.  CPython behaviours whose exact
domain no claim depends on (string-to-number parsing, ISO date parsing and
`str()` rendering of compound values) are parameters of a `PyEnv` record, so
that all theorems quantify over them.
-/

namespace OpenBankingBR

/-- A JSON-like Python value: `None`, `bool`, number, `str`, `list`, `dict`.
Numbers are modelled by `Int`; objects are association lists. -/
inductive JsonValue where
  | null : JsonValue
  | bool : Bool → JsonValue
  | num  : Int → JsonValue
  | str  : String → JsonValue
  | list : List JsonValue → JsonValue
  | obj  : List (String × JsonValue) → JsonValue

/-- First-match lookup in an object's entry list (Python `d[k]` success case). -/
def entriesGet : List (String × JsonValue) → String → Option JsonValue
  | [], _ => none
  | (k', v) :: rest, k => if k' = k then some v else entriesGet rest k

/-- Replace-or-append update of an object's entry list (Python `d[k] = v`). -/
def entriesSet : List (String × JsonValue) → String → JsonValue → List (String × JsonValue)
  | [], k, v => [(k, v)]
  | (k', v') :: rest, k, v =>
      if k' = k then (k, v) :: rest else (k', v') :: entriesSet rest k v

/-- `k in d` / `d[k]` lookup on a value known to be an object; `none` otherwise. -/
def objGet : JsonValue → String → Option JsonValue
  | .obj kvs, k => entriesGet kvs k
  | _, _ => none

/-- Whether a mapping value has the given key (`k in company`).  Non-mapping
values are modelled as having no keys; the claims only concern mapping
entries. -/
def objHasKey (v : JsonValue) (k : String) : Bool :=
  (objGet v k).isSome

/-- The Python exceptions that the embedded code can raise or handle.
Messages are not modelled; exception identity is what the claims are about. -/
inductive PyExc where
  | keyError
  | typeError
  | valueError
  | notImplementedError
  | requiredField
  | openBanking
deriving DecidableEq, Repr

/-- The `valueType` argument of `utils.get`: `None`, `list`, `dict`, `int`,
`str`, `float`, `bool`, `date`, `datetime`, or any other type object (the
final `else` branch raising `NotImplementedError`). -/
inductive ValueType where
  | vNone | vList | vDict | vInt | vStr | vFloat | vBool | vDate | vDatetime | vOther
deriving DecidableEq, Repr

/-- CPython behaviours that no claim depends on, kept abstract so every
theorem quantifies over them: `int(s)` and `float(s)` on strings (`none`
models `ValueError`), `datetime.fromisoformat` success on a string, and the
`str()` rendering of a non-string value. -/
structure PyEnv where
  intParse : String → Option Int
  floatParse : String → Option Int
  isoParse : String → Bool
  strRepr : JsonValue → String

/-- Helper for `splitDot`: accumulate characters up to each dot. -/
def splitDotAux : List Char → List Char → List String
  | acc, [] => [⟨acc.reverse⟩]
  | acc, c :: rest =>
      if c = '.' then ⟨acc.reverse⟩ :: splitDotAux [] rest
      else splitDotAux (c :: acc) rest

/-- Python `key.split(dot)`: split on every dot; never empty (the split of
the empty string is one empty component). -/
def splitDot (s : String) : List String :=
  splitDotAux [] s.data

/-- Whether the first character list starts the second. -/
def charsLead : List Char → List Char → Bool
  | [], _ => true
  | _ :: _, [] => false
  | c :: cs, d :: ds => c = d && charsLead cs ds

/-- Python `s.startswith(pre)`. -/
def strStartsWith (s pre : String) : Bool :=
  charsLead pre.data s.data

/-- Python truthiness, for the `bool(cur)` coercion. -/
def pyTruthy : JsonValue → Bool
  | .null => false
  | .bool b => b
  | .num n => n ≠ 0
  | .str s => s ≠ ""
  | .list xs => !xs.isEmpty
  | .obj kvs => !kvs.isEmpty

/-- Python subscription `cur[k]` with a string key: mapping lookup succeeds
or raises `KeyError`; every non-mapping value raises `TypeError`. -/
def getItem : JsonValue → String → Except PyExc JsonValue
  | .obj kvs, k =>
      match entriesGet kvs k with
      | some v => .ok v
      | none => .error .keyError
  | _, _ => .error .typeError

/-- The traversal loop of `utils.get`: `for k in keys: cur = cur[k]; if cur
is None: return None`.  `.ok none` models the early `return None` on a null
value; errors are the exceptions `cur[k]` raises. -/
def walkPath : JsonValue → List String → Except PyExc (Option JsonValue)
  | v, [] => .ok (some v)
  | v, k :: ks =>
      match getItem v k with
      | .error e => .error e
      | .ok .null => .ok none
      | .ok v' => walkPath v' ks

/-- `s.rstrip(Z-character)`: drop every trailing `Z`. -/
def rstripZ (s : String) : String :=
  ⟨(s.data.reverse.dropWhile (· = 'Z')).reverse⟩

/-- The type-coercion dispatch of `utils.get` after the traversal: the
`if valueType == ...` chain.  `datetime` objects produced by the two date
branches are represented by their (stripped) source string. -/
def coerce (env : PyEnv) : ValueType → JsonValue → Except PyExc JsonValue
  | .vNone, cur => .ok cur
  | .vList, cur =>
      match cur with
      | .list xs => .ok (.list xs)
      | _ => .error .valueError
  | .vDict, cur =>
      match cur with
      | .obj kvs => .ok (.obj kvs)
      | _ => .error .valueError
  | .vInt, cur =>
      match cur with
      | .num n => .ok (.num n)
      | .bool b => .ok (.num (if b then 1 else 0))
      | .str s =>
          match env.intParse s with
          | some n => .ok (.num n)
          | none => .error .valueError
      | _ => .error .typeError
  | .vStr, cur =>
      match cur with
      | .str s => .ok (.str s)
      | _ => .ok (.str (env.strRepr cur))
  | .vFloat, cur =>
      match cur with
      | .num n => .ok (.num n)
      | .bool b => .ok (.num (if b then 1 else 0))
      | .str s =>
          match env.floatParse s with
          | some n => .ok (.num n)
          | none => .error .valueError
      | _ => .error .typeError
  | .vBool, cur => .ok (.bool (pyTruthy cur))
  | .vDate, cur =>
      match cur with
      | .str s => if env.isoParse s then .ok (.str s) else .error .valueError
      | _ => .error .typeError
  | .vDatetime, cur =>
      match cur with
      | .str s =>
          if env.isoParse (rstripZ s) then .ok (.str (rstripZ s)) else .error .valueError
      | _ => .error .typeError
  | .vOther, _ => .error .notImplementedError

/-- The outcome of a `utils.get` call: a returned value, a returned `None`,
or a raised exception. -/
inductive GetResult where
  | val : JsonValue → GetResult
  | absent : GetResult
  | exc : PyExc → GetResult

/-- `utils.get(d, key, required, valueType)`: dotted-path traversal followed
by coercion, with the `except ValueError / except KeyError /
except Exception` handlers of the source.  A `ValueError` or `KeyError`
becomes `RequiredFieldException` when `required`, every other exception is
re-raised when `required`, and everything yields `None` otherwise. -/
def get (env : PyEnv) (d : JsonValue) (key : String) (required : Bool)
    (valueType : ValueType) : GetResult :=
  match walkPath d (splitDot key) with
  | .error .keyError => if required then .exc .requiredField else .absent
  | .error e => if required then .exc e else .absent
  | .ok none => .absent
  | .ok (some cur) =>
      match coerce env valueType cur with
      | .ok v => .val v
      | .error .valueError => if required then .exc .requiredField else .absent
      | .error e => if required then .exc e else .absent

/-- `utils.get` with `required=False` as an `Option`, the shape every
non-required call site consumes (`None` ↦ `none`). -/
def getOpt (env : PyEnv) (d : JsonValue) (key : String) (valueType : ValueType) :
    Option JsonValue :=
  match get env d key false valueType with
  | .val v => some v
  | _ => none

/-! ## HTTP fetcher and cache (`utils.fetchUrl`, `utils.fetchUrlPages`)

The network is a function from URL to outcome; the cache directory is a map
from URL to stored document and creation day (the `md5(url)`-named file with
its filesystem creation date, keyed here directly by the URL since the hash
is injective on the URLs in play).  `file_was_created_today` is the test
`creation day = today`.  The `cacheDir` existence/creation checks at the top
of `fetchUrl` concern filesystem configuration and are assumed to succeed;
`hasCache` models whether a `cacheDir` was passed at all.  The list of URLs
actually requested over the network is logged so that "without a network
request" is expressible.

The model's URL domain is the ASCII strings the cache key
`md5(url.encode('ascii'))` is derived from: for a non-ASCII URL with a
cache configured the source raises `UnicodeEncodeError` at that derivation
— a statement placed before the `try:` block, so the error propagates to
the caller — and no theorem below speaks about that path. -/

/-- The body of an HTTP response: parses as JSON or raises `ValueError` in
`res.json()`. -/
inductive Body where
  | jsonBody : JsonValue → Body
  | nonJson : Body

/-- Outcome of `requests.get(url)`: a response with a status code (the
source never inspects the status), or a failure.  The URL failures of
`requests` split in two: `invalidUrl` is `requests.exceptions.InvalidURL`
(e.g. a scheme with no host), the one exception the source names in its
own handler; `missingSchema` covers `requests.exceptions.MissingSchema`
and `InvalidSchema` (schemeless or bad-scheme URLs), which subclass
`ValueError` but not `InvalidURL` and therefore reach the source's
`except ValueError` handler instead. -/
inductive NetResult where
  | response : Nat → Body → NetResult
  | invalidUrl : NetResult
  | missingSchema : NetResult
  | timeout : NetResult
  | connectionError : NetResult

/-- The fetcher's environment: the remote network and the current calendar
day (as a day number). -/
structure FetchEnv where
  network : String → NetResult
  today : Nat

/-- Mutable world of the fetcher: cache entries (URL ↦ document, creation
day) and the log of URLs requested over the network. -/
structure FetchState where
  cache : List (String × JsonValue × Nat)
  networkLog : List String

/-- Replace-or-append a cache entry written today. -/
def cacheWrite (c : List (String × JsonValue × Nat)) (url : String)
    (doc : JsonValue) (day : Nat) : List (String × JsonValue × Nat) :=
  match c with
  | [] => [(url, doc, day)]
  | (u, e) :: rest =>
      if u = url then (url, doc, day) :: rest else (u, e) :: cacheWrite rest url doc day

/-- Outcome of `fetchUrl`: a non-`None` JSON document, `None`, or a raised
exception.  A parsed JSON `null` body returns Python `None` and is folded
into `absent`. -/
inductive FetchResult where
  | value : JsonValue → FetchResult
  | absent : FetchResult
  | raised : PyExc → FetchResult

/-- The `try:`-block of `fetchUrl`: issue the GET, parse the body, persist.
The handlers run in source order: `except InvalidURL` silences exactly
`requests.exceptions.InvalidURL`; `except ValueError` — which catches both
a JSON parse failure in `res.json()` and the `MissingSchema` /
`InvalidSchema` URL errors, all `ValueError` subclasses — raises
`OpenBankingException`; the bare `except:` turns every other failure
(timeouts, connection errors) into `None`.  When no `cacheDir` was given,
the cache-write statement reads the local variable `cacheEntry` that was
never assigned; the resulting `UnboundLocalError` is swallowed by the
bare `except:` and the call returns `None`. -/
def fetchNetwork (env : FetchEnv) (url : String) (hasCache : Bool)
    (st : FetchState) : FetchResult × FetchState :=
  let st1 : FetchState := { st with networkLog := st.networkLog ++ [url] }
  match env.network url with
  | .invalidUrl => (.absent, st1)
  | .missingSchema => (.raised .openBanking, st1)
  | .timeout => (.absent, st1)
  | .connectionError => (.absent, st1)
  | .response _ .nonJson => (.raised .openBanking, st1)
  | .response _ (.jsonBody v) =>
      match v with
      | .null => (.absent, st1)
      | _ =>
          if hasCache then
            (.value v, { st1 with cache := cacheWrite st1.cache url v env.today })
          else
            (.absent, st1)

/-- `utils.fetchUrl(url, cacheDir)`: serve a cache entry created today,
delete a stale entry and refetch, or go straight to the network. -/
def fetchUrl (env : FetchEnv) (url : String) (hasCache : Bool)
    (st : FetchState) : FetchResult × FetchState :=
  if hasCache then
    match st.cache.lookup url with
    | some (doc, day) =>
        if day = env.today then
          (.value doc, st)
        else
          fetchNetwork env url true
            { st with cache := st.cache.filter (fun e => e.1 ≠ url) }
    | none => fetchNetwork env url true st
  else
    fetchNetwork env url false st

/-- One element yielded by the `fetchUrlPages` generator: a page's `data`
mapping, or — from the statement `yield fetchUrlPages(nextPage, ...)` — the
unstarted generator object created for the next URL. -/
inductive PageElem where
  | pageData : JsonValue → PageElem
  | generatorObj : String → PageElem

/-- Outcome of consuming the `fetchUrlPages` generator to exhaustion: the
yielded elements, or an exception raised during iteration. -/
inductive PagesResult where
  | pages : List PageElem → PagesResult
  | raised : PyExc → PagesResult

/-- `utils.fetchUrlPages(url, cacheDir)`, fully consumed: fetch the root,
stop on `None`/non-mapping/missing `data`, attach the requesting URL to the
`data` mapping under `endPoint`, yield it, then look at `links.next` and —
when it is an absolute `http(s)` URL — yield the generator object built for
it (the source says `yield`, not `yield from`). -/
def fetchUrlPages (env : FetchEnv) (penv : PyEnv) (url : String)
    (hasCache : Bool) (st : FetchState) : PagesResult × FetchState :=
  match fetchUrl env url hasCache st with
  | (.raised e, st') => (.raised e, st')
  | (.absent, st') => (.pages [], st')
  | (.value root, st') =>
      match objGet root "data" with
      | some (.obj dkvs) =>
          let page : PageElem := .pageData (.obj (entriesSet dkvs "endPoint" (.str url)))
          match getOpt penv root "links.next" .vStr with
          | some (.str s) =>
              if strStartsWith s "http://" || strStartsWith s "https://" then
                (.pages [page, .generatorObj s], st')
              else
                (.pages [page], st')
          | _ => (.pages [page], st')
      | some _ =>
          -- `data[endPoint-key] = url` on a non-mapping raises `TypeError`.
          (.raised .typeError, st')
      | none => (.pages [], st')

/-! ## Product normalization (`models.Participante.produtos`)

The per-page decoding of `brand.companies[]` into `Produto` constructor
calls.  An emission records the arguments of one `yield Produto(self, key,
item, interestRate)`: the selected family key, the item mapping (with the
page's `endPoint` attached) and the optional interest-rate mapping (with
`interestSequence` attached).  In the source the rate mapping is mutated in
place inside the item's own list; no claim reads it back through the item,
so the emission carries the tagged copy. -/

/-- The fixed ordered list of twelve product-family keys scanned on each
company entry. -/
def familyKeys : List String :=
  [ "personalAccounts", "businessAccounts",
    "personalCreditCards", "businessCreditCards",
    "personalLoans", "businessLoans",
    "personalFinancings", "businessFinancings",
    "personalInvoiceFinancings", "businessInvoiceFinancings",
    "personalUnarrangedAccountOverdraft", "businessUnarrangedAccountOverdraft" ]

/-- The arguments of one `Produto(self, key, item, interestRate)` call. -/
structure Emission where
  key : String
  item : JsonValue
  interestRate : Option JsonValue

/-- Tag each interest-rate mapping of a list with `interestSequence`
numbers `i`, `i+1`, ...; a non-mapping entry raises `TypeError` on the
`interestRate[sequence-key] = n` assignment. -/
def seqTag (i : Int) : List JsonValue → Except PyExc (List JsonValue)
  | [] => .ok []
  | .obj kvs :: rest => do
      let tail ← seqTag (i + 1) rest
      return .obj (entriesSet kvs "interestSequence" (.num i)) :: tail
  | _ :: _ => .error .typeError

/-- Decode one item of a company's selected family list into its emitted
`Produto` calls: one per `interestRates` entry, else one per
`interest.rates` entry, else — when `interest` is absent or not a mapping —
a single call without interest detail.  An item whose `interest` is a
mapping lacking a `rates` list falls through both inner branches and emits
nothing. -/
def itemEmissions (endPoint key : String) (item : JsonValue) :
    Except PyExc (List Emission) :=
  match item with
  | .obj kvs =>
      let item' : JsonValue := .obj (entriesSet kvs "endPoint" (.str endPoint))
      match objGet item' "interestRates" with
      | some (.list rates) => do
          let tagged ← seqTag 1 rates
          return tagged.map (fun r => ⟨key, item', some r⟩)
      | _ =>
          match objGet item' "interest" with
          | some (.obj ikvs) =>
              match entriesGet ikvs "rates" with
              | some (.list rates) => do
                  let tagged ← seqTag 1 rates
                  return tagged.map (fun r => ⟨key, item', some r⟩)
              | _ => .ok []
          | _ => .ok [⟨key, item', none⟩]
  | _ => .error .typeError

/-- Decode the items of one company's selected family list. -/
def itemsEmissions (endPoint key : String) : List JsonValue →
    Except PyExc (List Emission)
  | [] => .ok []
  | item :: rest => do
      let es ← itemEmissions endPoint key item
      let tail ← itemsEmissions endPoint key rest
      return es ++ tail

/-- The `for company in brand[companies-key]` loop.  The accumulator `key`
is the loop-carried local variable of the source, initialised to `None`
once per page and only ever overwritten when a scan succeeds: a company on
which no family key is present keeps the previous company's key, and the
subsequent `company[key]` subscription raises `KeyError`. -/
def companiesEmissions (endPoint : String) (key : Option String) :
    List JsonValue → Except PyExc (List Emission)
  | [] => .ok []
  | company :: rest =>
      match familyKeys.find? (fun k => objHasKey company k) with
      | some k =>
          match objGet company k with
          | some (.list items) => do
              let es ← itemsEmissions endPoint k items
              let tail ← companiesEmissions endPoint (some k) rest
              return es ++ tail
          | _ => companiesEmissions endPoint (some k) rest
      | none =>
          match key with
          | none => companiesEmissions endPoint none rest
          | some k =>
              match getItem company k with
              | .error e => .error e
              | .ok v =>
                  match v with
                  | .list items => do
                      let es ← itemsEmissions endPoint k items
                      let tail ← companiesEmissions endPoint (some k) rest
                      return es ++ tail
                  | _ => companiesEmissions endPoint (some k) rest

/-- `Produto.jurosSeq`: reads `interestSequence` from `self.dados` — the
item mapping, not the interest-rate mapping — and defaults to 1. -/
def jurosSeq (penv : PyEnv) (e : Emission) : Int :=
  match getOpt penv e.item "interestSequence" .vInt with
  | some (.num n) => n
  | _ => 1

/-! ## Four-bucket fee decoding (`Servico.__init__`, `Pacote.__init__`)

Both constructors run the identical `prices` loop over `self._taxa` and
`self._clientes`, four-slot arrays initialised to `None`. -/

/-- The bucket state: the `_taxa` and `_clientes` arrays. -/
structure Faixas where
  taxa : List (Option JsonValue)
  clientes : List (Option JsonValue)

/-- The initial bucket state `[None, None, None, None]`. -/
def faixas0 : Faixas := ⟨[none, none, none, none], [none, none, none, none]⟩

/-- Store one entry's `(value, customers.rate)` pair in bucket `i` of the
state (`self._taxa[i] = ...; self._clientes[i] = ...`). -/
def setFaixa (penv : PyEnv) (fx : Faixas) (price : JsonValue) (i : Nat) : Faixas :=
  ⟨fx.taxa.set i (getOpt penv price "value" .vFloat),
   fx.clientes.set i (getOpt penv price "customers.rate" .vFloat)⟩

/-- One iteration of the `for price in dados[prices-key]` loop: subscribe
`price[interval-key]`, dispatch on the four `n_FAIXA` labels, otherwise
leave the state unchanged. -/
def priceStep (penv : PyEnv) (fx : Faixas) (price : JsonValue) :
    Except PyExc Faixas :=
  match getItem price "interval" with
  | .error e => .error e
  | .ok (.str s) =>
      if s = "1_FAIXA" then .ok (setFaixa penv fx price 0)
      else if s = "2_FAIXA" then .ok (setFaixa penv fx price 1)
      else if s = "3_FAIXA" then .ok (setFaixa penv fx price 2)
      else if s = "4_FAIXA" then .ok (setFaixa penv fx price 3)
      else .ok fx
  | .ok _ => .ok fx

/-- The whole `prices` loop. -/
def pricesFold (penv : PyEnv) : Faixas → List JsonValue → Except PyExc Faixas
  | fx, [] => .ok fx
  | fx, p :: rest =>
      match priceStep penv fx p with
      | .error e => .error e
      | .ok fx' => pricesFold penv fx' rest

/-- The bucket-decoding part of `Servico.__init__`: run the loop when
`get(dados, prices-key, list)` finds a list, else keep the `None`s. -/
def servicoFaixas (penv : PyEnv) (dados : JsonValue) : Except PyExc Faixas :=
  match getOpt penv dados "prices" .vList with
  | some (.list prices) => pricesFold penv faixas0 prices
  | _ => .ok faixas0

/-- The bucket-decoding part of `Pacote.__init__`: textually the same loop
as `Servico.__init__`. -/
def pacoteFaixas (penv : PyEnv) (dados : JsonValue) : Except PyExc Faixas :=
  match getOpt penv dados "prices" .vList with
  | some (.list prices) => pricesFold penv faixas0 prices
  | _ => .ok faixas0

/-- A price entry that carries an `interval` label not among the four
recognized `n_FAIXA` labels. -/
def unrecognizedPrice (p : JsonValue) : Bool :=
  match getItem p "interval" with
  | .ok (.str s) =>
      !(s == "1_FAIXA" || s == "2_FAIXA" || s == "3_FAIXA" || s == "4_FAIXA")
  | .ok _ => true
  | .error _ => false

/-! ## Concrete fixtures used by witnesses and counterexamples -/

/-- A concrete `PyEnv`: every string fails numeric and ISO parsing and
renders as the empty string.  No theorem depends on these choices. -/
def pyEnv0 : PyEnv := ⟨fun _ => none, fun _ => none, fun _ => false, fun _ => ""⟩

/-- A concrete non-null JSON document. -/
def docA : JsonValue := .obj [("a", .num 1)]

/-- A network on which every GET yields HTTP 200 with body `docA`. -/
def fenvOk : FetchEnv := ⟨fun _ => .response 200 (.jsonBody docA), 7⟩

/-- A network on which every GET yields HTTP 404 with a non-JSON body. -/
def fenv404 : FetchEnv := ⟨fun _ => .response 404 .nonJson, 7⟩

/-- A network on which every GET fails with `MissingSchema`/`InvalidSchema`
(a schemeless or bad-scheme URL). -/
def fenvBadScheme : FetchEnv := ⟨fun _ => .missingSchema, 7⟩

/-- The empty fetcher state: no cache entries, no requests made. -/
def stEmpty : FetchState := ⟨[], []⟩

/-- A state whose cache holds a document for URL `u` created on day 7 (the
current day of `fenvOk`). -/
def stFresh : FetchState := ⟨[("u", .obj [("d", .num 2)], 7)], []⟩

/-- A state whose cache holds a document for URL `u` created on day 6 (the
day before `fenvOk.today`). -/
def stStale : FetchState := ⟨[("u", .obj [("d", .num 2)], 6)], []⟩

/-- A root page response carrying a `data` mapping and an absolute
`links.next` URL. -/
def rootPage : JsonValue :=
  .obj [("data", .obj [("x", .num 1)]),
        ("links", .obj [("next", .str "https://api.example/p2")])]

/-- A network on which every GET yields HTTP 200 with body `rootPage`. -/
def fenvPages : FetchEnv := ⟨fun _ => .response 200 (.jsonBody rootPage), 7⟩

/-- A product item with a two-entry `interestRates` list. -/
def itemTwoRates : JsonValue :=
  .obj [("interestRates", .list [.obj [("rate", .num 3)], .obj [("rate", .num 4)]])]

/-- A product item whose `interest` field is a mapping without `rates`. -/
def itemBareInterest : JsonValue := .obj [("interest", .obj [])]

/-- A company entry carrying the `personalLoans` family with no items. -/
def companyLoans : JsonValue := .obj [("personalLoans", .list [])]

/-- A company entry on which none of the twelve family keys is present. -/
def companyEmpty : JsonValue := .obj []

/-- A price entry labelled `3_FAIXA` with a value and a customer share. -/
def priceFaixa3 : JsonValue :=
  .obj [("interval", .str "3_FAIXA"), ("value", .num 5),
        ("customers", .obj [("rate", .num 9)])]

/-- A price entry with the unrecognized label `9_FAIXA`. -/
def priceFaixa9 : JsonValue := .obj [("interval", .str "9_FAIXA"), ("value", .num 8)]

/-! ## Theorems -/

/-- C7 (counterexample). In required mode a type-coercion failure does not
always raise `RequiredFieldException`: coercing a list to `int` raises
`TypeError` inside CPython's `int()`, and the source's
`except Exception as e: raise e` re-raises it unchanged, so the lookup does
raise an unrelated error type. -/
theorem c7_typeerror_leaks :
    get pyEnv0 (.obj [("a", .list [])]) "a" true .vInt = .exc .typeError ∧
    PyExc.typeError ≠ PyExc.requiredField :=
  ⟨rfl, by decide⟩

/-- C7 (amended). In optional mode `get` never raises, and a failed
traversal (missing key or non-mapping step) as well as a failed coercion
each yield `None`.  In required mode a missing mapping key (`KeyError`) or
a coercion failure that CPython signals as `ValueError` raises
`RequiredFieldException`; but a traversal or coercion failure signalled by
any other exception type (for example `TypeError` from subscribing a
non-mapping or from `int()` on a list) is re-raised as that unrelated
type. -/
theorem c7_get_error_modes (env : PyEnv) (d : JsonValue) (key : String)
    (vt : ValueType) :
    (∀ e, get env d key false vt ≠ .exc e) ∧
    (∀ e, walkPath d (splitDot key) = .error e →
      get env d key false vt = .absent) ∧
    (∀ cur e, walkPath d (splitDot key) = .ok (some cur) →
      coerce env vt cur = .error e →
      get env d key false vt = .absent) ∧
    (walkPath d (splitDot key) = .error .keyError →
      get env d key true vt = .exc .requiredField) ∧
    (∀ cur, walkPath d (splitDot key) = .ok (some cur) →
      coerce env vt cur = .error .valueError →
      get env d key true vt = .exc .requiredField) ∧
    (∀ e, walkPath d (splitDot key) = .error e → e ≠ .keyError →
      get env d key true vt = .exc e) ∧
    (∀ cur e, walkPath d (splitDot key) = .ok (some cur) →
      coerce env vt cur = .error e → e ≠ .valueError →
      get env d key true vt = .exc e) := by
  refine ⟨?_, ?_, ?_, ?_, ?_, ?_, ?_⟩
  · intro e h
    unfold get at h
    rcases hw : walkPath d (splitDot key) with e' | oc
    · cases e' <;> simp [hw] at h
    · rcases oc with _ | cur
      · simp [hw] at h
      · simp only [hw] at h
        rcases hc : coerce env vt cur with e' | v
        · cases e' <;> simp [hc] at h
        · simp [hc] at h
  · intro e hw
    cases e <;> simp [get, hw]
  · intro cur e hw hc
    cases e <;> simp [get, hw, hc]
  · intro h
    simp [get, h]
  · intro cur hw hc
    simp [get, hw, hc]
  · intro e hw he
    cases e <;> simp [get, hw] at he ⊢
  · intro cur e hw hc he
    cases e <;> simp [get, hw, hc] at he ⊢

/-- C7 (witness for `c7_get_error_modes`), exercising the optional-mode
missing-key and coercion-failure cases (both yield `None`), the
required-mode missing-key case and the required-mode `TypeError` re-raise
case. -/
theorem c7_get_error_modes_witness :
    get pyEnv0 (.obj [("a", .num 1)]) "b" false .vInt = .absent ∧
    get pyEnv0 (.obj [("a", .list [])]) "a" false .vInt = .absent ∧
    get pyEnv0 (.obj [("a", .num 1)]) "b" true .vInt = .exc .requiredField ∧
    get pyEnv0 (.obj [("x", .obj [])]) "x" true .vInt = .exc .typeError := by
  refine ⟨?_, ?_, ?_, ?_⟩
  · exact (c7_get_error_modes pyEnv0 (.obj [("a", .num 1)]) "b" .vInt).2.1
      .keyError rfl
  · exact (c7_get_error_modes pyEnv0 (.obj [("a", .list [])]) "a" .vInt).2.2.1
      (.list []) .typeError rfl rfl
  · exact (c7_get_error_modes pyEnv0 (.obj [("a", .num 1)]) "b" .vInt).2.2.2.1 rfl
  · exact (c7_get_error_modes pyEnv0 (.obj [("x", .obj [])]) "x" .vInt).2.2.2.2.2.2
      (.obj []) .typeError rfl rfl (by decide)

/-- C10. When any value along the dotted path — intermediate or final — is
null, `get` returns `None` without raising, in optional and in required
mode alike: the `if cur is None: return None` early exit runs before any
coercion or error handling. -/
theorem c10_null_on_path_yields_absent (env : PyEnv) (d : JsonValue)
    (key : String) (required : Bool) (vt : ValueType)
    (h : walkPath d (splitDot key) = .ok none) :
    get env d key required vt = .absent := by
  simp [get, h]

/-- C10 (witness for `c10_null_on_path_yields_absent`): an intermediate
null under `a` makes the required lookup of `a.b` return `None`. -/
theorem c10_null_on_path_yields_absent_witness :
    walkPath (.obj [("a", .null)]) (splitDot "a.b") = .ok none ∧
    get pyEnv0 (.obj [("a", .null)]) "a.b" true .vInt = .absent :=
  ⟨rfl, c10_null_on_path_yields_absent pyEnv0 (.obj [("a", .null)]) "a.b" true .vInt rfl⟩

/-- Every pass through the `try:`-block of `fetchUrl` issues exactly one
network request: the requested URL is appended to the log. -/
theorem fetchNetwork_networkLog (env : FetchEnv) (url : String) (hc : Bool)
    (st : FetchState) :
    (fetchNetwork env url hc st).2.networkLog = st.networkLog ++ [url] := by
  cases h : env.network url with
  | response s b =>
      cases b with
      | jsonBody v =>
          cases v <;> simp only [fetchNetwork, h] <;>
            first
            | rfl
            | (split <;> rfl)
      | nonJson => simp [fetchNetwork, h]
  | invalidUrl => simp [fetchNetwork, h]
  | missingSchema => simp [fetchNetwork, h]
  | timeout => simp [fetchNetwork, h]
  | connectionError => simp [fetchNetwork, h]

/-- C5. A cache entry is served iff its creation day is the current day:
a fresh entry is returned as-is with the state untouched — in particular no
network request is made — while an entry with any other creation day is
deleted from the cache and the fetch proceeds to the network, logging a
request for the URL. -/
theorem c5_cache_daily_freshness (env : FetchEnv) (url : String)
    (st : FetchState) (doc : JsonValue) (day : Nat)
    (h : st.cache.lookup url = some (doc, day)) :
    (day = env.today → fetchUrl env url true st = (.value doc, st)) ∧
    (day ≠ env.today →
      fetchUrl env url true st =
        fetchNetwork env url true
          { st with cache := st.cache.filter (fun e => e.1 ≠ url) } ∧
      (fetchUrl env url true st).2.networkLog = st.networkLog ++ [url]) := by
  constructor
  · intro hd
    simp [fetchUrl, h, hd]
  · intro hd
    have heq : fetchUrl env url true st =
        fetchNetwork env url true
          { st with cache := st.cache.filter (fun e => e.1 ≠ url) } := by
      simp [fetchUrl, h, hd]
    refine ⟨heq, ?_⟩
    rw [heq, fetchNetwork_networkLog]

/-- C5 (witness for `c5_cache_daily_freshness`): a same-day entry for `u`
is served untouched; a day-old entry leads to one logged network request. -/
theorem c5_cache_daily_freshness_witness :
    fetchUrl fenvOk "u" true stFresh = (.value (.obj [("d", .num 2)]), stFresh) ∧
    (fetchUrl fenvOk "u" true stStale).2.networkLog = ["u"] := by
  constructor
  · exact (c5_cache_daily_freshness fenvOk "u" stFresh (.obj [("d", .num 2)]) 7 rfl).1 rfl
  · exact ((c5_cache_daily_freshness fenvOk "u" stStale (.obj [("d", .num 2)]) 6 rfl).2
      (by decide)).2

/-- C2 (code bug). With no cache directory configured, a successful GET
whose body parses as a non-null JSON document does not return that
document: the unconditional cache-write statement reads the never-assigned
local `cacheEntry`, and the resulting `UnboundLocalError` is swallowed by
the bare `except:`, so the call returns `None`.  (With a cache directory
the same fetch does return the document.) -/
theorem c2_no_cachedir_swallows_document :
    fenvOk.network "http://example.com/items" = .response 200 (.jsonBody docA) ∧
    docA ≠ .null ∧
    (fetchUrl fenvOk "http://example.com/items" false stEmpty).1 = .absent ∧
    (fetchUrl fenvOk "http://example.com/items" true stEmpty).1 = .value docA :=
  ⟨rfl, by simp [docA], rfl, rfl⟩

/-- C8 (counterexample). A non-2xx response is not degraded to an absent
result: the status code is never examined, so an HTTP 404 whose body is
not JSON raises `OpenBankingException` instead of yielding `None`. -/
theorem c8_non2xx_nonjson_raises :
    fenv404.network "http://b.example/x" = .response 404 .nonJson ∧
    (fetchUrl fenv404 "http://b.example/x" false stEmpty).1 = .raised .openBanking ∧
    (fetchUrl fenv404 "http://b.example/x" true stEmpty).1 = .raised .openBanking :=
  ⟨rfl, rfl, rfl⟩

/-- C8 (amended). `fetchUrl`'s failure behaviour on a cache miss: a URL so
malformed that `requests` raises `InvalidURL` yields `None` without
raising, but a schemeless or bad-scheme URL — `MissingSchema` /
`InvalidSchema`, `ValueError` subclasses that the `except InvalidURL`
handler does not catch — raises `OpenBankingException`; a timeout and a
connection failure each yield `None` without raising; a response body that
is not valid JSON raises `OpenBankingException` regardless of the HTTP
status; and a response with a non-null JSON body is processed regardless
of status too — returned when a cache directory is configured, and
degraded to `None` (by the unbound `cacheEntry` slip) when not. -/
theorem c8_failure_modes (env : FetchEnv) (url : String) (st : FetchState)
    (hc : Bool) (hmiss : st.cache.lookup url = none) :
    (env.network url = .invalidUrl → (fetchUrl env url hc st).1 = .absent) ∧
    (env.network url = .missingSchema →
      (fetchUrl env url hc st).1 = .raised .openBanking) ∧
    (env.network url = .timeout → (fetchUrl env url hc st).1 = .absent) ∧
    (env.network url = .connectionError → (fetchUrl env url hc st).1 = .absent) ∧
    (∀ status, env.network url = .response status .nonJson →
      (fetchUrl env url hc st).1 = .raised .openBanking) ∧
    (∀ status v, env.network url = .response status (.jsonBody v) → v ≠ .null →
      (fetchUrl env url true st).1 = .value v) ∧
    (∀ status v, env.network url = .response status (.jsonBody v) → v ≠ .null →
      (fetchUrl env url false st).1 = .absent) := by
  have hnet : ∀ b, fetchUrl env url b st = fetchNetwork env url b st := by
    intro b
    cases b <;> simp [fetchUrl, hmiss]
  refine ⟨?_, ?_, ?_, ?_, ?_, ?_, ?_⟩
  · intro h; rw [hnet]; simp [fetchNetwork, h]
  · intro h; rw [hnet]; simp [fetchNetwork, h]
  · intro h; rw [hnet]; simp [fetchNetwork, h]
  · intro h; rw [hnet]; simp [fetchNetwork, h]
  · intro status h; rw [hnet]; simp [fetchNetwork, h]
  · intro status v h hv
    rw [hnet]
    unfold fetchNetwork
    rw [h]
    cases v <;> simp_all
  · intro status v h hv
    rw [hnet]
    unfold fetchNetwork
    rw [h]
    cases v <;> simp_all

/-- C8 (witness for `c8_failure_modes`): the bad-scheme raise, the non-JSON
404 raise and the status-ignoring 200 return, on the empty state. -/
theorem c8_failure_modes_witness :
    (fetchUrl fenvBadScheme "example.com/x" true stEmpty).1 = .raised .openBanking ∧
    (fetchUrl fenv404 "http://b.example/y" true stEmpty).1 = .raised .openBanking ∧
    (fetchUrl fenvOk "http://example.com/z" true stEmpty).1 = .value docA := by
  refine ⟨?_, ?_, ?_⟩
  · exact (c8_failure_modes fenvBadScheme "example.com/x" stEmpty true rfl).2.1 rfl
  · exact (c8_failure_modes fenv404 "http://b.example/y" stEmpty true rfl).2.2.2.2.1 404 rfl
  · exact (c8_failure_modes fenvOk "http://example.com/z" stEmpty true rfl).2.2.2.2.2.1
      200 docA rfl (by simp [docA])

/-- C1 (code bug). When `links.next` holds an absolute `http(s)` URL, the
statement `yield fetchUrlPages(nextPage, ...)` yields the generator object
itself as the second element of the sequence — not the pages of the next
URL — so not every yielded element is a `data` page payload.  (No request
is ever made for the next URL by the walker itself: the network here
answers every URL with the same one-page root, yet the second element is
the unstarted generator for `https://api.example/p2`.) -/
theorem c1_next_link_yields_generator_object :
    (fetchUrlPages fenvPages pyEnv0 "https://api.example/p1" true stEmpty).1 =
      .pages
        [.pageData (.obj [("x", .num 1), ("endPoint", .str "https://api.example/p1")]),
         .generatorObj "https://api.example/p2"] :=
  rfl

/-- C4 (code bug). The family-key variable is initialised once per page,
not once per company: a company carrying none of the twelve keys retains
the previous company's key and the subscription `company[key]` raises
`KeyError`, aborting the page.  The same keyless company placed first is
skipped harmlessly, which shows the missing per-company reset is the
cause. -/
theorem c4_stale_family_key_raises :
    companiesEmissions "ep" none [companyLoans, companyEmpty] = .error .keyError ∧
    companiesEmissions "ep" none [companyEmpty, companyLoans] = .ok [] :=
  ⟨rfl, rfl⟩

/-- C6 (code bug). An item with a two-entry `interestRates` list yields two
Products in list order, and the loop does write `interestSequence` numbers
1 and 2 — but onto the interest-rate mappings, while `Produto.jurosSeq`
reads `interestSequence` from the item mapping, so both emitted Products
report `jurosSeq = 1` instead of 1 and 2. -/
theorem c6_jurosseq_stuck_at_one :
    (itemEmissions "ep" "personalLoans" itemTwoRates).toOption.map
        (fun es => es.map (fun e => e.interestRate.bind (fun r => objGet r "interestSequence"))) =
      some [some (.num 1), some (.num 2)] ∧
    (itemEmissions "ep" "personalLoans" itemTwoRates).toOption.map
        (fun es => es.map (jurosSeq pyEnv0)) =
      some [1, 1] :=
  ⟨rfl, rfl⟩

/-- C3 (counterexample). An item whose `interest` field is a mapping that
lacks a `rates` list — so it has neither an `interestRates` list nor an
`interest.rates` list — is dropped entirely: the normalizer emits zero
Products for it, not one. -/
theorem c3_bare_interest_emits_nothing :
    objGet itemBareInterest "interestRates" = none ∧
    objGet itemBareInterest "interest" = some (.obj []) ∧
    itemEmissions "ep" "personalLoans" itemBareInterest = .ok [] ∧
    (itemEmissions "ep" "personalLoans" itemBareInterest).toOption.map List.length =
      some 0 :=
  ⟨rfl, rfl, rfl, rfl⟩

/-- Updating one key leaves lookups of a different key unchanged. -/
theorem entriesGet_entriesSet_ne (kvs : List (String × JsonValue))
    (k k' : String) (v : JsonValue) (h : k ≠ k') :
    entriesGet (entriesSet kvs k v) k' = entriesGet kvs k' := by
  induction kvs with
  | nil => simp [entriesSet, entriesGet, h]
  | cons hd tl ih =>
      obtain ⟨k0, v0⟩ := hd
      by_cases h0 : k0 = k
      · subst h0
        simp [entriesSet, entriesGet, h]
      · simp [entriesSet, entriesGet, h0, ih]

/-- C3 (amended). An item that has neither an `interestRates` list nor an
`interest` mapping yields exactly one Product carrying no interest-rate
detail; but an item whose `interest` field is a mapping lacking a `rates`
list falls through both rate branches and yields no Product at all. -/
theorem c3_item_without_rate_lists (ep key : String)
    (kvs : List (String × JsonValue)) :
    ((∀ xs, entriesGet kvs "interestRates" ≠ some (.list xs)) →
      (∀ ikvs, entriesGet kvs "interest" ≠ some (.obj ikvs)) →
      itemEmissions ep key (.obj kvs) =
        .ok [⟨key, .obj (entriesSet kvs "endPoint" (.str ep)), none⟩]) ∧
    (∀ ikvs, entriesGet kvs "interest" = some (.obj ikvs) →
      (∀ xs, entriesGet kvs "interestRates" ≠ some (.list xs)) →
      (∀ xs, entriesGet ikvs "rates" ≠ some (.list xs)) →
      itemEmissions ep key (.obj kvs) = .ok []) := by
  have hir : entriesGet (entriesSet kvs "endPoint" (.str ep)) "interestRates" =
      entriesGet kvs "interestRates" :=
    entriesGet_entriesSet_ne kvs "endPoint" "interestRates" (.str ep) (by decide)
  have hin : entriesGet (entriesSet kvs "endPoint" (.str ep)) "interest" =
      entriesGet kvs "interest" :=
    entriesGet_entriesSet_ne kvs "endPoint" "interest" (.str ep) (by decide)
  constructor
  · intro h1 h2
    simp only [itemEmissions, objGet, hir, hin]
  · intro ikvs hI h1 h3
    simp only [itemEmissions, objGet, hir, hin, hI]

/-- C3 (witness for `c3_item_without_rate_lists`): a plain item yields one
Product without interest detail; an item whose `interest` mapping has no
`rates` list yields none. -/
theorem c3_item_without_rate_lists_witness :
    itemEmissions "ep" "personalLoans" (.obj [("x", .num 1)]) =
      .ok [⟨"personalLoans", .obj [("x", .num 1), ("endPoint", .str "ep")], none⟩] ∧
    itemEmissions "ep" "personalLoans" (.obj [("interest", .obj [("q", .num 0)])]) =
      .ok [] := by
  constructor
  · exact (c3_item_without_rate_lists "ep" "personalLoans" [("x", .num 1)]).1
      (fun _ h => by cases h) (fun _ h => by cases h)
  · exact (c3_item_without_rate_lists "ep" "personalLoans"
      [("interest", .obj [("q", .num 0)])]).2 [("q", .num 0)] rfl
      (fun _ h => by cases h) (fun _ h => by cases h)

/-- A price entry with an unrecognized interval label falls through the
whole `elif` chain and leaves both bucket arrays unchanged. -/
theorem priceStep_unrecognized (penv : PyEnv) (fx : Faixas) (p : JsonValue)
    (h : unrecognizedPrice p = true) : priceStep penv fx p = .ok fx := by
  rcases hi : getItem p "interval" with e | iv
  · simp only [unrecognizedPrice, hi] at h
    exact absurd h (by decide)
  · cases iv with
    | str s =>
        simp only [unrecognizedPrice, hi, Bool.not_eq_true',
          Bool.or_eq_false_iff, beq_eq_false_iff_ne] at h
        obtain ⟨⟨⟨h1, h2⟩, h3⟩, h4⟩ := h
        simp [priceStep, hi, h1, h2, h3, h4]
    | null => simp [priceStep, hi]
    | bool b => simp [priceStep, hi]
    | num n => simp [priceStep, hi]
    | list xs => simp [priceStep, hi]
    | obj kvs => simp [priceStep, hi]

/-- A run of unrecognized price entries leaves the buckets unchanged. -/
theorem pricesFold_unrecognized (penv : PyEnv) (fx : Faixas)
    (ps : List JsonValue) (h : ∀ p ∈ ps, unrecognizedPrice p = true) :
    pricesFold penv fx ps = .ok fx := by
  induction ps with
  | nil => rfl
  | cons p rest ih =>
      have hp : unrecognizedPrice p = true := h p (List.mem_cons_self p rest)
      have hr : ∀ q ∈ rest, unrecognizedPrice q = true :=
        fun q hq => h q (List.mem_cons_of_mem p hq)
      simp [pricesFold, priceStep_unrecognized penv fx p hp, ih hr]

/-- The `prices` loop splits over list concatenation. -/
theorem pricesFold_append (penv : PyEnv) (as bs : List JsonValue) (fx : Faixas) :
    pricesFold penv fx (as ++ bs) =
      (pricesFold penv fx as).bind (fun fx' => pricesFold penv fx' bs) := by
  induction as generalizing fx with
  | nil => rfl
  | cons p rest ih =>
      simp only [List.cons_append, pricesFold]
      cases hs : priceStep penv fx p with
      | error e => rfl
      | ok fx' => simpa using ih fx'

/-- C9. In the four-bucket decoding shared by `Servico` and `Pacote`, a
`prices` list holding one entry labelled `3_FAIXA` among entries with
unrecognized interval labels decodes without error to buckets where only
index 2 carries the entry's (value, customer-share) pair and buckets 0, 1
and 3 stay absent. -/
theorem c9_faixa3_sets_only_bucket2 (penv : PyEnv) (pre post : List JsonValue)
    (p : JsonValue) (kvs : List (String × JsonValue))
    (hpre : ∀ q ∈ pre, unrecognizedPrice q = true)
    (hpost : ∀ q ∈ post, unrecognizedPrice q = true)
    (hp : getItem p "interval" = .ok (.str "3_FAIXA")) :
    servicoFaixas penv (.obj (("prices", .list (pre ++ p :: post)) :: kvs)) =
      .ok ⟨[none, none, getOpt penv p "value" .vFloat, none],
           [none, none, getOpt penv p "customers.rate" .vFloat, none]⟩ ∧
    pacoteFaixas penv (.obj (("prices", .list (pre ++ p :: post)) :: kvs)) =
      .ok ⟨[none, none, getOpt penv p "value" .vFloat, none],
           [none, none, getOpt penv p "customers.rate" .vFloat, none]⟩ := by
  have hstep : priceStep penv faixas0 p =
      .ok ⟨[none, none, getOpt penv p "value" .vFloat, none],
           [none, none, getOpt penv p "customers.rate" .vFloat, none]⟩ := by
    simp [priceStep, hp, faixas0, setFaixa]
  have hfold : pricesFold penv faixas0 (pre ++ p :: post) =
      .ok ⟨[none, none, getOpt penv p "value" .vFloat, none],
           [none, none, getOpt penv p "customers.rate" .vFloat, none]⟩ := by
    rw [pricesFold_append, pricesFold_unrecognized penv faixas0 pre hpre]
    show pricesFold penv faixas0 (p :: post) = _
    simp only [pricesFold, hstep]
    exact pricesFold_unrecognized penv _ post hpost
  exact ⟨hfold, hfold⟩

/-- C9 (witness for `c9_faixa3_sets_only_bucket2`): one `9_FAIXA` entry and
one `3_FAIXA` entry with value 5 and customer share 9. -/
theorem c9_faixa3_sets_only_bucket2_witness :
    servicoFaixas pyEnv0 (.obj [("prices", .list [priceFaixa9, priceFaixa3])]) =
      .ok ⟨[none, none, some (.num 5), none], [none, none, some (.num 9), none]⟩ ∧
    pacoteFaixas pyEnv0 (.obj [("prices", .list [priceFaixa9, priceFaixa3])]) =
      .ok ⟨[none, none, some (.num 5), none], [none, none, some (.num 9), none]⟩ :=
  c9_faixa3_sets_only_bucket2 pyEnv0 [priceFaixa9] [] priceFaixa3 []
    (by decide) (by decide) rfl

end OpenBankingBR
